import Mathlib

/-!
Shallow embedding of `src/vestiar_code_api.h` (ESP8266 keypad master-code
HTTP API) and verification of its specification claims.

The source file holds one mutable string `masterCode`, a JSON file
`/code.json` persisting it, and three HTTP handlers on `/api/code`
(GET, POST, OPTIONS).  We embed the mutable state explicitly
(`SysState`), the filesystem as an abstract `FileState`, and each handler
as a pure function from request and state to response and new state.
-/

namespace Vestiar

/-- Abstract state of the persisted record file `/code.json`, covering the
four failure branches of `loadCode` (lines 23, 25, 27, 30 of the source:
file absent, open fails, JSON parse fails, no readable string field
`code`) and the successful record holding a code string. -/
inductive FileState where
  | absent : FileState
  | unopenable : FileState
  | malformed : FileState
  | noCode : FileState
  | record : String → FileState
deriving DecidableEq

/-- Process state: the in-memory `masterCode` string, the record file, and
whether `LittleFS.open(FILE_CODE, "w")` succeeds (source line 39). -/
structure SysState where
  masterCode : String
  file : FileState
  writable : Bool
deriving DecidableEq

/-- An HTTP response: status code, content type, body, headers. -/
structure HttpResponse where
  status : Nat
  contentType : String
  body : String
  headers : List (String × String)
deriving DecidableEq

/-- The three fixed CORS headers sent by `sendJsonWithCORS`
(source lines 15-17) and by the OPTIONS lambda (source lines 95-97). -/
def corsHeaders : List (String × String) :=
  [("Access-Control-Allow-Origin", "*"),
   ("Access-Control-Allow-Methods", "GET,POST,OPTIONS"),
   ("Access-Control-Allow-Headers", "Content-Type")]

/-- `sendJsonWithCORS` (source lines 14-19): sends the given status and
body as `application/json` with the three CORS headers. -/
def sendJsonWithCORS (code : Nat) (body : String) : HttpResponse :=
  { status := code, contentType := "application/json",
    body := body, headers := corsHeaders }

/-- `loadCode` (source lines 22-34): fails without touching `masterCode`
when the file is absent, cannot be opened, does not parse, or has no
readable string field `code`; otherwise assigns `masterCode` and
succeeds. -/
def loadCode (st : SysState) : Bool × SysState :=
  match st.file with
  | FileState.absent => (false, st)
  | FileState.unopenable => (false, st)
  | FileState.malformed => (false, st)
  | FileState.noCode => (false, st)
  | FileState.record c => (true, { st with masterCode := c })

/-- `saveCode` (source lines 36-45): opens the file for writing; on
failure returns `false` leaving all state unchanged; on success
overwrites the record with the new code, assigns `masterCode := code`,
and returns `true`. -/
def saveCode (code : String) (st : SysState) : Bool × SysState :=
  if st.writable then
    (true, { st with file := FileState.record code, masterCode := code })
  else
    (false, st)

/-- The body of the per-character test inside the `isDigits` lambda
(source line 66): the character fails iff `s[i] < '0' || s[i] > '9'`. -/
def digitCharOk (c : Char) : Bool :=
  !(decide (c < '0') || decide ('9' < c))

/-- The `isDigits` lambda (source lines 65-68): true iff no character of
the string fails the per-character test. -/
def isDigits (s : String) : Bool :=
  s.data.all digitCharOk

/-- A parsed POST body: the three fields as extracted on source
lines 61-63.  `none` models a field that is missing or not readable as a
string; ArduinoJson's default operator then yields the empty string. -/
structure PostBody where
  current : Option String
  news : Option String
  confirm : Option String
deriving DecidableEq

/-- The ArduinoJson field default (source lines 61-63): a missing or
non-string field reads as the empty string. -/
def orEmpty (o : Option String) : String :=
  match o with
  | some s => s
  | none => ""

/-- A POST request as seen by `handleCodePost`: no `plain` argument
(source line 57), a body rejected by `deserializeJson` (source line 59),
or a parsed body. -/
inductive PostRequest where
  | noBody : PostRequest
  | badJson : PostRequest
  | parsed : PostBody → PostRequest
deriving DecidableEq

def errNoBody : String := "\x7b\"ok\":false,\"err\":\"no_body\"\x7d"

def errJson : String := "\x7b\"ok\":false,\"err\":\"json\"\x7d"

def errFmt : String := "\x7b\"ok\":false,\"err\":\"fmt\",\"hint\":\"4-8 cifre\"\x7d"

def errConfirm : String := "\x7b\"ok\":false,\"err\":\"confirm\"\x7d"

def errCurrent : String := "\x7b\"ok\":false,\"err\":\"current\"\x7d"

def errSave : String := "\x7b\"ok\":false,\"err\":\"save\"\x7d"

def okBody : String := "\x7b\"ok\":true\x7d"

/-- `handleCodePost` (source lines 56-88), as a function from the request
and the current state to the response and the next state.  The branch
structure mirrors the source line by line: missing body, unparseable
body, format check on `new`, confirm check, current check, then
`saveCode`. -/
def handleCodePost (req : PostRequest) (st : SysState) :
    HttpResponse × SysState :=
  match req with
  | PostRequest.noBody => (sendJsonWithCORS 400 errNoBody, st)
  | PostRequest.badJson => (sendJsonWithCORS 400 errJson, st)
  | PostRequest.parsed b =>
    let current := orEmpty b.current
    let news := orEmpty b.news
    let confirm := orEmpty b.confirm
    if news.length < 4 ∨ 8 < news.length ∨ isDigits news = false then
      (sendJsonWithCORS 400 errFmt, st)
    else if news ≠ confirm then
      (sendJsonWithCORS 400 errConfirm, st)
    else if 0 < st.masterCode.length ∧ current ≠ st.masterCode then
      (sendJsonWithCORS 403 errCurrent, st)
    else
      match saveCode news st with
      | (false, st2) => (sendJsonWithCORS 500 errSave, st2)
      | (true, st2) => (sendJsonWithCORS 200 okBody, st2)

/-- The body serialized by `handleCodeGet` (source lines 49-52):
ArduinoJson emits the two members in insertion order, compactly. -/
def getBody (mc : String) : String :=
  "\x7b\"set\":" ++ (if 0 < mc.length then ("true") else ("false"))
    ++ ",\"len\":" ++ toString mc.length ++ "\x7d"

/-- `handleCodeGet` (source lines 48-54): always 200, body reporting
whether a code is set and its length; no state change. -/
def handleCodeGet (st : SysState) : HttpResponse × SysState :=
  (sendJsonWithCORS 200 (getBody st.masterCode), st)

/-- The OPTIONS lambda registered in `registerCodeApi` (source
lines 94-99): 204, `text/plain`, empty body, the three CORS headers; no
state change. -/
def handleCodeOptions (st : SysState) : HttpResponse × SysState :=
  ({ status := 204, contentType := "text/plain",
     body := "", headers := corsHeaders }, st)

/-- A request on `/api/code`, one of the three registered routes
(source lines 92-94). -/
inductive Request where
  | get : Request
  | post : PostRequest → Request
  | options : Request
deriving DecidableEq

/-- Dispatch of `registerCodeApi` (source lines 91-100). -/
def handle (req : Request) (st : SysState) : HttpResponse × SysState :=
  match req with
  | Request.get => handleCodeGet st
  | Request.post r => handleCodePost r st
  | Request.options => handleCodeOptions st

/-- Run a sequence of requests, threading the state. -/
def runSeq (reqs : List Request) (st : SysState) : SysState :=
  reqs.foldl (fun s r => (handle r s).2) st

/-- An ASCII decimal digit, the character class of the spec's pattern. -/
def isAsciiDigit (c : Char) : Bool :=
  decide ('0' ≤ c) && decide (c ≤ '9')

/-- The spec's pattern: a string of 4 to 8 ASCII decimal digits,
anchored at both ends. -/
def matchesCodePattern (s : String) : Bool :=
  decide (4 ≤ s.length) && decide (s.length ≤ 8) && s.data.all isAsciiDigit

/-- The in-memory code is either empty (not set) or a valid 4-8 digit
code. -/
def codeOk (mc : String) : Prop :=
  mc = "" ∨ matchesCodePattern mc = true

/-- A concrete state with no code set: empty in-memory code, no record
file, writable filesystem. -/
def stEmpty : SysState :=
  { masterCode := "", file := FileState.absent, writable := true }

/-- A concrete state with the code set and persisted. -/
def stSet : SysState :=
  { masterCode := "1234", file := FileState.record ("1234"), writable := true }

/-- A concrete first-time-setup body: no current, matching valid new and
confirm. -/
def pb1234 : PostBody :=
  { current := none, news := some ("1234"), confirm := some ("1234") }

/-- A string has positive length iff it is not the empty string. -/
theorem length_pos_iff (s : String) : 0 < s.length ↔ s ≠ "" := by
  cases s with
  | mk data => cases data <;> simp [String.length, String.ext_iff]

/-- The per-character test of the source's `isDigits` lambda agrees with
the spec's ASCII-digit character class. -/
theorem digitCharOk_eq (c : Char) : digitCharOk c = isAsciiDigit c := by
  simp [digitCharOk, isAsciiDigit, Bool.not_or, ← decide_not, not_lt]

/-- The source's `isDigits` agrees with checking every character against
the digit class. -/
theorem isDigits_eq (s : String) : isDigits s = s.data.all isAsciiDigit := by
  unfold isDigits
  congr 1
  funext c
  exact digitCharOk_eq c

/-- Matching the spec's pattern is exactly passing the source's format
check on line 70. -/
theorem matches_iff (s : String) :
    matchesCodePattern s = true ↔
      ¬(s.length < 4 ∨ 8 < s.length ∨ isDigits s = false) := by
  simp [matchesCodePattern, isDigits_eq, not_lt, not_or, and_assoc]

/-- Failing the spec's pattern is exactly triggering the source's format
rejection on line 70. -/
theorem matches_false_iff (s : String) :
    matchesCodePattern s = false ↔
      (s.length < 4 ∨ 8 < s.length ∨ isDigits s = false) := by
  rw [← Bool.not_eq_true, matches_iff, not_not]

/-- Unfolding of `handleCodePost` on a parsed body, with the `let`
bindings substituted. -/
theorem handleCodePost_parsed (b : PostBody) (st : SysState) :
    handleCodePost (PostRequest.parsed b) st =
      (if (orEmpty b.news).length < 4 ∨ 8 < (orEmpty b.news).length ∨
          isDigits (orEmpty b.news) = false then
        (sendJsonWithCORS 400 errFmt, st)
      else if orEmpty b.news ≠ orEmpty b.confirm then
        (sendJsonWithCORS 400 errConfirm, st)
      else if 0 < st.masterCode.length ∧ orEmpty b.current ≠ st.masterCode then
        (sendJsonWithCORS 403 errCurrent, st)
      else
        match saveCode (orEmpty b.news) st with
        | (false, st2) => (sendJsonWithCORS 500 errSave, st2)
        | (true, st2) => (sendJsonWithCORS 200 okBody, st2)) := rfl

/-- Branch lemma: a body whose `new` fails the 4-8 digit pattern is
rejected with the `fmt` error, state unchanged. -/
theorem post_fmt_reject (b : PostBody) (st : SysState)
    (h : matchesCodePattern (orEmpty b.news) = false) :
    handleCodePost (PostRequest.parsed b) st =
      (sendJsonWithCORS 400 errFmt, st) := by
  rw [handleCodePost_parsed, if_pos ((matches_false_iff _).mp h)]

/-- Branch lemma: a valid `new` differing from `confirm` is rejected with
the `confirm` error, state unchanged. -/
theorem post_confirm_reject (b : PostBody) (st : SysState)
    (hfmt : matchesCodePattern (orEmpty b.news) = true)
    (hne : orEmpty b.news ≠ orEmpty b.confirm) :
    handleCodePost (PostRequest.parsed b) st =
      (sendJsonWithCORS 400 errConfirm, st) := by
  rw [handleCodePost_parsed, if_neg ((matches_iff _).mp hfmt), if_pos hne]

/-- Branch lemma: with valid matching `new`/`confirm`, a set code, and a
wrong `current`, the request is rejected 403, state unchanged. -/
theorem post_current_reject (b : PostBody) (st : SysState)
    (hfmt : matchesCodePattern (orEmpty b.news) = true)
    (hconf : orEmpty b.news = orEmpty b.confirm)
    (hset : st.masterCode ≠ "")
    (hcur : orEmpty b.current ≠ st.masterCode) :
    handleCodePost (PostRequest.parsed b) st =
      (sendJsonWithCORS 403 errCurrent, st) := by
  rw [handleCodePost_parsed, if_neg ((matches_iff _).mp hfmt),
    if_neg (not_not_intro hconf),
    if_pos (And.intro ((length_pos_iff _).mpr hset) hcur)]

/-- Branch lemma: with valid matching `new`/`confirm` and the current
check passed (or skipped), the handler runs `saveCode` and answers from
its result. -/
theorem post_save_branch (b : PostBody) (st : SysState)
    (hfmt : matchesCodePattern (orEmpty b.news) = true)
    (hconf : orEmpty b.news = orEmpty b.confirm)
    (hcur : ¬(0 < st.masterCode.length ∧ orEmpty b.current ≠ st.masterCode)) :
    handleCodePost (PostRequest.parsed b) st =
      (match saveCode (orEmpty b.news) st with
       | (false, st2) => (sendJsonWithCORS 500 errSave, st2)
       | (true, st2) => (sendJsonWithCORS 200 okBody, st2)) := by
  rw [handleCodePost_parsed, if_neg ((matches_iff _).mp hfmt),
    if_neg (not_not_intro hconf), if_neg hcur]

/-- C1: for a parsed POST whose new/confirm pass validation: with a
non-empty stored code and a differing `current` the handler answers 403
with the current error and no state change; with an empty stored code the
current check is skipped: the outcome ignores `current`, and on a
writable filesystem the request succeeds with 200. -/
theorem C1_current_gate (b : PostBody) (st : SysState)
    (hfmt : matchesCodePattern (orEmpty b.news) = true)
    (hconf : orEmpty b.news = orEmpty b.confirm) :
    (st.masterCode ≠ "" → orEmpty b.current ≠ st.masterCode →
      handleCodePost (PostRequest.parsed b) st =
        (sendJsonWithCORS 403 errCurrent, st)) ∧
    (st.masterCode = "" →
      (∀ cur : Option String,
        handleCodePost (PostRequest.parsed { b with current := cur }) st =
          handleCodePost (PostRequest.parsed b) st) ∧
      (st.writable = true →
        (handleCodePost (PostRequest.parsed b) st).1.status = 200)) := by
  constructor
  · intro hset hcur
    exact post_current_reject b st hfmt hconf hset hcur
  · intro hmc
    have hnopos : ∀ q : String, ¬(0 < st.masterCode.length ∧ q ≠ st.masterCode) := by
      rintro q ⟨h1, -⟩
      rw [hmc] at h1
      exact absurd h1 (by decide)
    constructor
    · intro cur
      rw [post_save_branch b st hfmt hconf (hnopos _),
        post_save_branch { b with current := cur } st hfmt hconf (hnopos _)]
    · intro hw
      rw [post_save_branch b st hfmt hconf (hnopos _)]
      unfold saveCode
      rw [if_pos hw]
      rfl

/-- C1 witness: wrong current against stored code is rejected 403 at a
concrete input. -/
theorem C1_current_gate_witness :
    matchesCodePattern (orEmpty (some ("4321"))) = true ∧
    handleCodePost
        (PostRequest.parsed
          { current := some ("0000"), news := some ("4321"), confirm := some ("4321") })
        stSet =
      (sendJsonWithCORS 403 errCurrent, stSet) :=
  ⟨by decide,
    (C1_current_gate _ _ (by decide) (by decide)).1 (by decide) (by decide)⟩

/-- C2: a POST on a parsed body answered 200 sets both the in-memory
code and the persisted record to the request's new code, and a following
GET reports set true with that code's length. -/
theorem C2_success_roundtrip (b : PostBody) (st : SysState)
    (h : (handleCodePost (PostRequest.parsed b) st).1.status = 200) :
    (handleCodePost (PostRequest.parsed b) st).2.masterCode = orEmpty b.news ∧
    (handleCodePost (PostRequest.parsed b) st).2.file =
      FileState.record (orEmpty b.news) ∧
    (handleCodeGet (handleCodePost (PostRequest.parsed b) st).2).1.status = 200 ∧
    (handleCodeGet (handleCodePost (PostRequest.parsed b) st).2).1.body =
      "\x7b\"set\":true,\"len\":" ++ toString (orEmpty b.news).length ++ "\x7d" := by
  rw [handleCodePost_parsed] at h ⊢
  split_ifs at h ⊢ with h1 h2 h3
  · simp [sendJsonWithCORS] at h
  · simp [sendJsonWithCORS] at h
  · simp [sendJsonWithCORS] at h
  · unfold saveCode at h ⊢
    split_ifs at h ⊢ with hw
    · push_neg at h1
      have hpos : 0 < (orEmpty b.news).length := by omega
      refine ⟨rfl, rfl, rfl, ?_⟩
      show getBody (orEmpty b.news) = _
      unfold getBody
      rw [if_pos hpos]
      rfl
    · simp [sendJsonWithCORS] at h

/-- C2 witness: a concrete first-time set succeeds and round-trips
through GET. -/
theorem C2_success_roundtrip_witness :
    (handleCodePost (PostRequest.parsed pb1234) stEmpty).1.status = 200 ∧
    ((handleCodePost (PostRequest.parsed pb1234) stEmpty).2.masterCode = orEmpty pb1234.news ∧
     (handleCodePost (PostRequest.parsed pb1234) stEmpty).2.file =
       FileState.record (orEmpty pb1234.news) ∧
     (handleCodeGet (handleCodePost (PostRequest.parsed pb1234) stEmpty).2).1.status = 200 ∧
     (handleCodeGet (handleCodePost (PostRequest.parsed pb1234) stEmpty).2).1.body =
       "\x7b\"set\":true,\"len\":" ++ toString (orEmpty pb1234.news).length ++ "\x7d") :=
  ⟨by decide, C2_success_roundtrip pb1234 stEmpty (by decide)⟩

/-- C3: a parsed body whose `new` does not match the 4-8 digit pattern is
answered 400 with the `fmt` error (and its hint, part of `errFmt`),
whatever the other fields and the state. -/
theorem C3_fmt_reject (b : PostBody) (st : SysState)
    (h : matchesCodePattern (orEmpty b.news) = false) :
    handleCodePost (PostRequest.parsed b) st =
      (sendJsonWithCORS 400 errFmt, st) :=
  post_fmt_reject b st h

/-- C3 witness: a two-digit new code is rejected with the fmt error. -/
theorem C3_fmt_reject_witness :
    matchesCodePattern (orEmpty (some ("12"))) = false ∧
    handleCodePost
        (PostRequest.parsed { current := none, news := some ("12"), confirm := none })
        stEmpty =
      (sendJsonWithCORS 400 errFmt, stEmpty) :=
  ⟨by decide, C3_fmt_reject _ _ (by decide)⟩

/-- C4 as stated is false: with stored code "1234" and wrong current
"0000" but a malformed `new`, the format check fires first, so the
response is 400 (fmt), not 403. -/
theorem C4_counterexample :
    (handleCodePost
        (PostRequest.parsed
          { current := some ("0000"), news := some ("abc"), confirm := some ("abc") })
        stSet).1.status = 400 ∧
    (handleCodePost
        (PostRequest.parsed
          { current := some ("0000"), news := some ("abc"), confirm := some ("abc") })
        stSet).1.status ≠ 403 := by
  decide

/-- C4 amended: with stored code "1234", current "0000", and new and
confirm valid and matching, the response is 403. -/
theorem C4_wrong_current (b : PostBody) (st : SysState)
    (hmc : st.masterCode = "1234")
    (hcur : orEmpty b.current = "0000")
    (hfmt : matchesCodePattern (orEmpty b.news) = true)
    (hconf : orEmpty b.news = orEmpty b.confirm) :
    (handleCodePost (PostRequest.parsed b) st).1.status = 403 := by
  rw [post_current_reject b st hfmt hconf
    (by rw [hmc]; decide) (by rw [hcur, hmc]; decide)]
  rfl

/-- C4 witness: a concrete wrong-current request with valid new/confirm
is answered 403. -/
theorem C4_wrong_current_witness :
    (handleCodePost
        (PostRequest.parsed
          { current := some ("0000"), news := some ("5678"), confirm := some ("5678") })
        stSet).1.status = 403 :=
  C4_wrong_current _ _ rfl rfl (by decide) rfl

/-- C5 as stated is false: the no_body error response body also carries
an ok:false member, not only the err tag. -/
theorem C5_counterexample :
    (handleCodePost PostRequest.noBody stEmpty).1.body = errNoBody ∧
    errNoBody ≠ "\x7b\"err\":\"no_body\"\x7d" := by
  decide

/-- C5 amended: every POST error response is one of the six fixed
responses, each carrying ok:false together with its err tag (plus hint
for fmt): 400 no_body, 400 json, 400 fmt, 400 confirm, 403 current,
500 save; missing body and unparseable body trigger the first two
exactly. -/
theorem C5_error_bodies (req : PostRequest) (st : SysState) :
    handleCodePost PostRequest.noBody st = (sendJsonWithCORS 400 errNoBody, st) ∧
    handleCodePost PostRequest.badJson st = (sendJsonWithCORS 400 errJson, st) ∧
    ((handleCodePost req st).1.status ≠ 200 →
      (handleCodePost req st).1 = sendJsonWithCORS 400 errNoBody ∨
      (handleCodePost req st).1 = sendJsonWithCORS 400 errJson ∨
      (handleCodePost req st).1 = sendJsonWithCORS 400 errFmt ∨
      (handleCodePost req st).1 = sendJsonWithCORS 400 errConfirm ∨
      (handleCodePost req st).1 = sendJsonWithCORS 403 errCurrent ∨
      (handleCodePost req st).1 = sendJsonWithCORS 500 errSave) := by
  refine ⟨rfl, rfl, ?_⟩
  intro hne
  cases req with
  | noBody => exact Or.inl rfl
  | badJson => exact Or.inr (Or.inl rfl)
  | parsed b =>
    rw [handleCodePost_parsed] at hne ⊢
    split_ifs at hne ⊢ with h1 h2 h3
    · exact Or.inr (Or.inr (Or.inl rfl))
    · exact Or.inr (Or.inr (Or.inr (Or.inl rfl)))
    · exact Or.inr (Or.inr (Or.inr (Or.inr (Or.inl rfl))))
    · unfold saveCode at hne ⊢
      split_ifs at hne ⊢ with hw
      · exact absurd rfl hne
      · exact Or.inr (Or.inr (Or.inr (Or.inr (Or.inr rfl))))

/-- C5 witness: the missing-body error response is the fixed no_body
response. -/
theorem C5_error_bodies_witness :
    (handleCodePost PostRequest.noBody stEmpty).1.status ≠ 200 ∧
    ((handleCodePost PostRequest.noBody stEmpty).1 = sendJsonWithCORS 400 errNoBody ∨
     (handleCodePost PostRequest.noBody stEmpty).1 = sendJsonWithCORS 400 errJson ∨
     (handleCodePost PostRequest.noBody stEmpty).1 = sendJsonWithCORS 400 errFmt ∨
     (handleCodePost PostRequest.noBody stEmpty).1 = sendJsonWithCORS 400 errConfirm ∨
     (handleCodePost PostRequest.noBody stEmpty).1 = sendJsonWithCORS 403 errCurrent ∨
     (handleCodePost PostRequest.noBody stEmpty).1 = sendJsonWithCORS 500 errSave) :=
  ⟨by decide, (C5_error_bodies PostRequest.noBody stEmpty).2.2 (by decide)⟩

/-- C6: a parsed body with valid `new` differing from `confirm` is
answered 400 with the `confirm` error for every state, hence before the
current check can matter, with no state change. -/
theorem C6_confirm_reject (b : PostBody) (st : SysState)
    (hfmt : matchesCodePattern (orEmpty b.news) = true)
    (hne : orEmpty b.news ≠ orEmpty b.confirm) :
    handleCodePost (PostRequest.parsed b) st =
      (sendJsonWithCORS 400 errConfirm, st) :=
  post_confirm_reject b st hfmt hne

/-- C6 witness: mismatched confirm is rejected even though the current
field is missing and a code is set. -/
theorem C6_confirm_reject_witness :
    matchesCodePattern (orEmpty (some ("1234"))) = true ∧
    handleCodePost
        (PostRequest.parsed
          { current := none, news := some ("1234"), confirm := some ("1235") })
        stSet =
      (sendJsonWithCORS 400 errConfirm, stSet) :=
  ⟨by decide, C6_confirm_reject _ _ (by decide) (by decide)⟩

/-- C7: GET always answers 200 with body reporting whether the code is
set (true iff the in-memory code is non-empty) and its length, without
mutating state; on an unset code it reports set false, len 0. -/
theorem C7_get_contract (st : SysState) :
    (handleCodeGet st).1.status = 200 ∧
    (handleCodeGet st).2 = st ∧
    (handleCodeGet st).1.body =
      "\x7b\"set\":" ++ (if st.masterCode ≠ "" then ("true") else ("false"))
        ++ ",\"len\":" ++ toString st.masterCode.length ++ "\x7d" ∧
    (st.masterCode = "" →
      (handleCodeGet st).1.body = "\x7b\"set\":false,\"len\":0\x7d") := by
  refine ⟨rfl, rfl, ?_, ?_⟩
  · simp only [handleCodeGet, sendJsonWithCORS, getBody, length_pos_iff]
  · intro h
    show getBody st.masterCode = _
    rw [h]
    rfl

/-- C7 witness: GET on the unset state reports set false, len 0. -/
theorem C7_get_contract_witness :
    stEmpty.masterCode = "" ∧
    (handleCodeGet stEmpty).1.body = "\x7b\"set\":false,\"len\":0\x7d" :=
  ⟨rfl, (C7_get_contract stEmpty).2.2.2 rfl⟩

/-- C8: load fails leaving memory untouched when the file is absent,
unopenable, unparseable, or without a readable string field code; it
succeeds exactly on a record file, assigning the stored value to the
in-memory code. -/
theorem C8_load_contract (st : SysState) :
    (st.file = FileState.absent ∨ st.file = FileState.unopenable ∨
     st.file = FileState.malformed ∨ st.file = FileState.noCode →
      loadCode st = (false, st)) ∧
    (∀ c, st.file = FileState.record c →
      loadCode st = (true, { st with masterCode := c })) ∧
    ((loadCode st).1 = true →
      ∃ c, st.file = FileState.record c ∧ (loadCode st).2.masterCode = c) := by
  refine ⟨?_, ?_, ?_⟩
  · rintro (h | h | h | h) <;> simp [loadCode, h]
  · intro c h
    simp [loadCode, h]
  · intro h
    cases hf : st.file with
    | record c => exact ⟨c, rfl, by simp [loadCode, hf]⟩
    | absent => simp [loadCode, hf] at h
    | unopenable => simp [loadCode, hf] at h
    | malformed => simp [loadCode, hf] at h
    | noCode => simp [loadCode, hf] at h

/-- C8 witness: load fails on the absent file and succeeds on a stored
record. -/
theorem C8_load_contract_witness :
    loadCode stEmpty = (false, stEmpty) ∧
    loadCode stSet = (true, { stSet with masterCode := "1234" }) :=
  ⟨(C8_load_contract stEmpty).1 (Or.inl rfl),
   (C8_load_contract stSet).2.1 ("1234") rfl⟩

/-- C9: OPTIONS always answers 204 with empty body and no state change,
and every response of the three handlers carries the three CORS
headers. -/
theorem C9_options_cors (st : SysState) (req : Request) :
    (handleCodeOptions st).1.status = 204 ∧
    (handleCodeOptions st).1.body = "" ∧
    (handleCodeOptions st).2 = st ∧
    (handle req st).1.headers = corsHeaders := by
  refine ⟨rfl, rfl, rfl, ?_⟩
  cases req with
  | get => rfl
  | options => rfl
  | post r =>
    cases r with
    | noBody => rfl
    | badJson => rfl
    | parsed b =>
      show (handleCodePost (PostRequest.parsed b) st).1.headers = corsHeaders
      rw [handleCodePost_parsed]
      split_ifs <;> first
        | rfl
        | (unfold saveCode; split_ifs <;> rfl)

/-- Each single request either leaves the in-memory code unchanged or
sets it to a nonempty code matching the 4-8 digit pattern. -/
theorem handle_masterCode_cases (req : Request) (st : SysState) :
    (handle req st).2.masterCode = st.masterCode ∨
    ((handle req st).2.masterCode ≠ "" ∧
      matchesCodePattern (handle req st).2.masterCode = true) := by
  cases req with
  | get => exact Or.inl rfl
  | options => exact Or.inl rfl
  | post r =>
    cases r with
    | noBody => exact Or.inl rfl
    | badJson => exact Or.inl rfl
    | parsed b =>
      simp only [handle]
      rw [handleCodePost_parsed]
      split_ifs with h1 h2 h3
      · exact Or.inl rfl
      · exact Or.inl rfl
      · exact Or.inl rfl
      · unfold saveCode
        split_ifs with hw
        · refine Or.inr ⟨?_, ?_⟩
          · show (orEmpty b.news : String) ≠ ""
            push_neg at h1
            have hpos : 0 < (orEmpty b.news).length := by omega
            exact (length_pos_iff _).mp hpos
          · show matchesCodePattern (orEmpty b.news) = true
            exact (matches_iff _).mpr h1
        · exact Or.inl rfl

/-- Running a request sequence preserves validity of the in-memory code
and never empties a nonempty code. -/
theorem runSeq_inv (reqs : List Request) :
    ∀ st : SysState,
      (codeOk st.masterCode → codeOk (runSeq reqs st).masterCode) ∧
      (st.masterCode ≠ "" → (runSeq reqs st).masterCode ≠ "") := by
  induction reqs with
  | nil => exact fun st => ⟨id, id⟩
  | cons r rs ih =>
    intro st
    have hr : runSeq (r :: rs) st = runSeq rs (handle r st).2 := rfl
    rw [hr]
    rcases handle_masterCode_cases r st with heq | ⟨hne, hvalid⟩
    · exact ⟨fun hok => (ih _).1 (by rwa [codeOk, heq]),
        fun hne0 => (ih _).2 (by rwa [heq])⟩
    · exact ⟨fun _ => (ih _).1 (Or.inr hvalid), fun _ => (ih _).2 hne⟩

/-- C10: from an empty code, any request sequence keeps the in-memory
code either empty or a 4-8 digit string, and a nonempty code can never
be emptied by any request sequence through the HTTP interface. -/
theorem C10_code_invariant (reqs : List Request) (st : SysState) :
    (st.masterCode = "" → codeOk (runSeq reqs st).masterCode) ∧
    (st.masterCode ≠ "" → (runSeq reqs st).masterCode ≠ "") :=
  ⟨fun h => (runSeq_inv reqs st).1 (Or.inl h), (runSeq_inv reqs st).2⟩

/-- C10 witness: a set from empty keeps the invariant, and a GET on a
set state does not empty it. -/
theorem C10_code_invariant_witness :
    codeOk (runSeq [Request.post (PostRequest.parsed pb1234)] stEmpty).masterCode ∧
    (runSeq [Request.get] stSet).masterCode ≠ "" :=
  ⟨(C10_code_invariant [Request.post (PostRequest.parsed pb1234)] stEmpty).1 rfl,
   (C10_code_invariant [Request.get] stSet).2 (by decide)⟩

end Vestiar
